import Mathlib

/-!
Verification of the mpv-web-controller player-control facade.

The development shallowly embeds the stateful core of the repository:
 - `audio_book_player.py`: `send_command` / `get_property` /
   `update_playback_state` (the refresh path over a global playback dict);
 - `internet_radio_player.py`: the `MPVController` class
   (`start_mpv`, `stop_mpv`, `play_station`, `toggle_pause`, `stop`,
   `set_volume`, `get_status`) and the `shutdown_mpv` route;
 - `controller.py`: the `/stop` route handler over the global
   `mpv_process` handle.

The external player and the IPC socket are modelled as an environment:
a function from commands to optional JSON-dict replies (a `none` reply is
`send_command` returning `None`: socket missing, connection error, or empty
response), plus flags for socket existence, process-spawn success and
wait-timeout outcomes. Python values carried in replies are modelled by
`PyVal`, with Python truthiness made explicit, since the source leans on
`x or default` idioms.
-/

namespace MpvWeb

/-- Python values that can appear as the `data` field of an mpv JSON reply,
with enough structure to express Python truthiness (`x or default`). -/
inductive PyVal where
  | none
  | bool (b : Bool)
  | int (n : Int)
  | float (q : Rat)
  | str (s : String)
  deriving DecidableEq, Repr

/-- Python truthiness of a value: `None`, `False`, `0`, `0.0` and `""` are
falsy, everything else truthy. -/
def PyVal.truthy : PyVal → Bool
  | .none => false
  | .bool b => b
  | .int n => n != 0
  | .float q => q != 0
  | .str s => s != ""

/-- Python `a or b`: yields `a` when `a` is truthy, else `b`. -/
def pyOr (a b : PyVal) : PyVal := if a.truthy then a else b

/-- A Python `None`-able value flattened into `PyVal` (Python has no
`Option` layer: `get_property` returning `None` is just the value `None`). -/
def optToPy : Option PyVal → PyVal
  | some v => v
  | Option.none => .none

/-- Field lookup in a parsed JSON object, as `"key" in d` / `d["key"]`. -/
def lookupField (fields : List (String × PyVal)) (k : String) : Option PyVal :=
  (fields.find? (fun p => p.1 == k)).map (fun p => p.2)

/-- Outcome of `audio_book_player.send_command`: either the parsed JSON
reply (a dict), or the `{"error": str(e)}` dict it substitutes when any
exception occurs (socket missing, connection refused, malformed JSON). It
never raises and never returns `None`. -/
inductive SendResult where
  | ok (fields : List (String × PyVal))
  | err (msg : String)
  deriving DecidableEq, Repr

/-- The dict a `SendResult` presents to its caller. -/
def SendResult.fields : SendResult → List (String × PyVal)
  | .ok fs => fs
  | .err m => [("error", .str m)]

/-- `audio_book_player.get_property`: return `result["data"]` when the
reply dict has a `"data"` key, else `None`. -/
def get_property (r : SendResult) : Option PyVal :=
  match lookupField r.fields "data" with
  | some v => some v
  | Option.none => Option.none

/-- The global `playback_state` dict of `audio_book_player.py`. Fields hold
raw Python values (`PyVal`), exactly as the dict does. -/
structure PlaybackState where
  filename : PyVal
  duration : PyVal
  position : PyVal
  paused : PyVal
  speed : PyVal
  chapter : PyVal
  chapter_count : PyVal
  volume : PyVal
  last_updated : PyVal
  deriving DecidableEq, Repr

/-- The initial `playback_state` dict literal of `audio_book_player.py`. -/
def initial_playback_state : PlaybackState :=
  { filename := .str "Unknown", duration := .int 0, position := .int 0,
    paused := .bool false, speed := .float 1, chapter := .int 0,
    chapter_count := .int 0, volume := .int 100, last_updated := .int 0 }

/-- `audio_book_player.update_playback_state`: one full refresh. `props`
maps each mpv property name to the `send_command` outcome for its
`get_property` call; `now` is the `time.time()` timestamp. Every field of
the global dict is overwritten, each with an `x or default` fallback. -/
def update_playback_state (props : String → SendResult) (now : PyVal)
    (_s : PlaybackState) : PlaybackState :=
  { filename := pyOr (optToPy (get_property (props "media-title")))
      (pyOr (optToPy (get_property (props "filename"))) (.str "Unknown"))
    duration := pyOr (optToPy (get_property (props "duration"))) (.int 0)
    position := pyOr (optToPy (get_property (props "time-pos"))) (.int 0)
    paused := pyOr (optToPy (get_property (props "pause"))) (.bool false)
    speed := pyOr (optToPy (get_property (props "speed"))) (.float 1)
    chapter := pyOr (optToPy (get_property (props "chapter"))) (.int 0)
    chapter_count := pyOr (optToPy (get_property (props "chapter-list/count"))) (.int 0)
    volume := pyOr (optToPy (get_property (props "volume"))) (.int 100)
    last_updated := now }

/-- A station entry of the `RADIO_STATIONS` configuration list. -/
structure Station where
  name : String
  url : String
  description : String
  deriving DecidableEq, Repr

/-- An external player process handle; `alive` models `poll() is None`. -/
structure Proc where
  pid : Nat
  alive : Bool
  deriving DecidableEq, Repr

/-- The mutable fields of `internet_radio_player.MPVController`. -/
structure MPVState where
  mpv_process : Option Proc
  current_station : Option Int
  playing : Bool
  volume : PyVal
  deriving DecidableEq, Repr

/-- The `MPVController.__init__` state. -/
def initial_mpv_state : MPVState :=
  { mpv_process := Option.none, current_station := Option.none,
    playing := false, volume := .int 50 }

/-- Commands the controller writes to the IPC socket. -/
inductive Cmd where
  | loadfile (url : String)
  | cyclePause
  | stopPlayback
  | setProperty (propName : String) (v : PyVal)
  | getProperty (propName : String)
  deriving DecidableEq, Repr

/-- Outcome of `MPVController.send_command`: `none` when it returns `None`
(socket file absent, connection or JSON error, empty response), otherwise
the parsed reply dict. -/
abbrev Reply := Option (List (String × PyVal))

/-- The external world as the radio controller sees it: whether the socket
file exists, what each command's `send_command` call yields, whether
`subprocess.Popen` succeeds and which handle it would produce. -/
structure Env where
  socketExists : Bool
  ch : Cmd → Reply
  startSucceeds : Bool
  spawnedProc : Proc

/-- Python truthiness of a `True`/`False`/`None` result, as tested by
`if success:` and `if not success:` on the value `start_mpv` returns. -/
def pyTruthyOptBool : Option Bool → Bool
  | Option.none => false
  | some b => b

/-- The spawn half of `MPVController.start_mpv`: remove any stale socket
file (no observable facade effect), `subprocess.Popen` the player, sleep,
return `True`; on a spawn exception return `False` with the handle
unchanged. Result: (returned value, state, whether a process was spawned). -/
def start_fresh (env : Env) (s : MPVState) : Option Bool × MPVState × Bool :=
  if env.startSucceeds then
    (some true, { s with mpv_process := some env.spawnedProc }, true)
  else
    (some false, s, false)

/-- `MPVController.start_mpv`: when a tracked handle exists and the process
is alive (`poll() is None`), log and bare-`return` (Python `None`);
otherwise spawn afresh. -/
def start_mpv (env : Env) (s : MPVState) : Option Bool × MPVState × Bool :=
  match s.mpv_process with
  | some p => if p.alive then (Option.none, s, false) else start_fresh env s
  | Option.none => start_fresh env s

/-- `MPVController.play_station`: validate the index, start the player when
the socket file is absent, then send `loadfile` and on a non-`None` reply
record the station and believed-playing flag. The third component logs the
channel commands sent. -/
def play_station (env : Env) (stations : List Station) (s : MPVState)
    (idx : Int) : Bool × MPVState × List Cmd :=
  if idx < 0 ∨ (stations.length : Int) ≤ idx then
    (false, s, [])
  else
    let started : Bool × MPVState :=
      if env.socketExists then (true, s)
      else
        let r := start_mpv env s
        (pyTruthyOptBool r.1, r.2.1)
    if started.1 = false then (false, started.2, [])
    else
      match stations.get? idx.toNat with
      | some st =>
        match env.ch (Cmd.loadfile st.url) with
        | some _ =>
          (true, { started.2 with current_station := some idx, playing := true },
           [Cmd.loadfile st.url])
        | Option.none => (false, started.2, [Cmd.loadfile st.url])
      | Option.none => (false, started.2, [])

/-- `MPVController.toggle_pause`: when not believed playing, replay the
remembered station if any (else fail); otherwise send `cycle pause` and
flip the believed flag only on a non-`None` reply. -/
def toggle_pause (env : Env) (stations : List Station) (s : MPVState) :
    Bool × MPVState × List Cmd :=
  if s.playing = false then
    match s.current_station with
    | some i => play_station env stations s i
    | Option.none => (false, s, [])
  else
    match env.ch Cmd.cyclePause with
    | some _ => (true, { s with playing := !s.playing }, [Cmd.cyclePause])
    | Option.none => (false, s, [Cmd.cyclePause])

/-- `MPVController.stop`: send `stop`; on a non-`None` reply clear the
believed-playing flag and report success. -/
def stop (env : Env) (s : MPVState) : Bool × MPVState × List Cmd :=
  match env.ch Cmd.stopPlayback with
  | some _ => (true, { s with playing := false }, [Cmd.stopPlayback])
  | Option.none => (false, s, [Cmd.stopPlayback])

/-- `MPVController.set_volume`: reject values outside `[0,100]` before any
socket traffic; otherwise send `set_property volume` and cache the value
on a non-`None` reply. -/
def set_volume (env : Env) (s : MPVState) (v : Int) : Bool × MPVState × List Cmd :=
  if v < 0 ∨ 100 < v then
    (false, s, [])
  else
    match env.ch (Cmd.setProperty "volume" (.int v)) with
    | some _ => (true, { s with volume := .int v }, [Cmd.setProperty "volume" (.int v)])
    | Option.none => (false, s, [Cmd.setProperty "volume" (.int v)])

/-- A usable value from a radio-controller reply, as the source tests it:
`if response and "data" in response` — the reply must be non-`None`, a
truthy (non-empty) dict, and contain a `"data"` key. -/
def replyData : Reply → Option PyVal
  | Option.none => Option.none
  | some d => if d.isEmpty then Option.none else lookupField d "data"

/-- The dict `MPVController.get_status` returns. -/
structure Status where
  playing : Bool
  station_index : Option Int
  station_name : Option String
  media_title : PyVal
  volume : PyVal
  deriving DecidableEq, Repr

/-- The `RADIO_STATIONS[i]["name"]` lookup `get_status` performs when a
station is remembered. -/
def station_name_of (stations : List Station) : Option Int → Option String
  | some i => (stations.get? i.toNat).map Station.name
  | Option.none => Option.none

/-- `MPVController.get_status`: three property reads; the title falls back
to `"Unknown"`, the cached volume and believed-playing flag are updated
only when the corresponding reply carries usable data. -/
def get_status (env : Env) (stations : List Station) (s : MPVState) :
    Status × MPVState :=
  let media_title := (replyData (env.ch (Cmd.getProperty "media-title"))).getD (.str "Unknown")
  let s1 := match replyData (env.ch (Cmd.getProperty "volume")) with
    | some v => { s with volume := v }
    | Option.none => s
  let s2 := match replyData (env.ch (Cmd.getProperty "pause")) with
    | some v => { s1 with playing := !v.truthy }
    | Option.none => s1
  ({ playing := s2.playing, station_index := s2.current_station,
     station_name := station_name_of stations s2.current_station,
     media_title := media_title, volume := s2.volume }, s2)

/-- Process-level actions taken while shutting the player down. -/
inductive ProcAction where
  | terminate
  | wait (timeoutSeconds : Nat)
  | kill
  | sendQuit
  deriving DecidableEq, Repr

/-- `MPVController.stop_mpv`: nothing happens without a tracked handle;
otherwise `terminate()` (graceful SIGTERM), `wait(timeout=5)`, and `kill()`
only when the wait times out; the handle, station and believed-playing flag
are cleared on every path. -/
def stop_mpv (waitTimesOut : Bool) (s : MPVState) : MPVState × List ProcAction :=
  match s.mpv_process with
  | Option.none => (s, [])
  | some _ =>
    ({ s with
        mpv_process := Option.none
        playing := false
        current_station := Option.none },
     if waitTimesOut then [ProcAction.terminate, ProcAction.wait 5, ProcAction.kill]
     else [ProcAction.terminate, ProcAction.wait 5])

/-- The `/api/shutdown_mpv` route of `internet_radio_player.py`: call
`stop_mpv` and unconditionally answer with status `"success"`. -/
def shutdown_mpv (waitTimesOut : Bool) (s : MPVState) : String × MPVState :=
  ("success", (stop_mpv waitTimesOut s).1)

/-- The global state of `controller.py`: only a process handle. -/
structure CtrlState where
  mpv_process : Option Proc
  deriving DecidableEq, Repr

/-- The `/stop` route of `controller.py`: with no tracked handle, answer
`success = False` untouched; otherwise send the channel `quit` command
(`sendOk` is `send_mpv_command`'s outcome), `wait(timeout=5)`, call
`terminate()` only when the wait raises, and always clear the handle. -/
def controller_stop (sendOk : Bool) (waitRaises : Bool) (s : CtrlState) :
    Bool × CtrlState × List ProcAction :=
  match s.mpv_process with
  | Option.none => (false, s, [])
  | some _ =>
    (sendOk, { mpv_process := Option.none },
     ProcAction.sendQuit :: ProcAction.wait 5 ::
       (if waitRaises then [ProcAction.terminate] else []))

/-- A fully successful environment: socket present, every channel call
answered, spawning works. -/
def env_all_ok : Env := ⟨true, fun _ => some [], true, ⟨1, true⟩⟩

/-- A fully unavailable environment: no socket, every channel call returns
`None`, spawning fails. -/
def env_down : Env := ⟨false, fun _ => Option.none, false, ⟨0, false⟩⟩

/-- An environment whose replies are non-empty dicts lacking a `"data"`
key. -/
def env_no_data : Env := ⟨true, fun _ => some [("err", .str "x")], true, ⟨1, true⟩⟩

/-- An environment with a missing socket file but a working channel and
spawner (models a deleted socket file while the player still runs). -/
def env_sockless : Env := ⟨false, fun _ => some [], true, ⟨1, true⟩⟩

/-- The single-station configuration of the spec scenario. -/
def test_station : Station := ⟨"Test", "udp://x", "d"⟩

/-- A controller state tracking a live player process. -/
def state_live_proc : MPVState := { initial_mpv_state with mpv_process := some ⟨2, true⟩ }

/-- A property channel whose fetches all succeed but return falsy data:
speed `0.0`, pause `False`, every other property `0`. -/
def falsy_props_example : String → SendResult := fun p =>
  if p == "speed" then SendResult.ok [("data", .float 0)]
  else if p == "pause" then SendResult.ok [("data", .bool false)]
  else SendResult.ok [("data", .int 0)]

/-- Claim C1 counterexample: with the Command Channel entirely down, every
property fetch of `update_playback_state` fails, yet the refreshed volume
field is `100` — not the `0` the claim assigns to missing numeric fields. -/
theorem refresh_volume_defaults_to_100_not_0 :
    (update_playback_state (fun _ => SendResult.err "down") (.int 0)
      initial_playback_state).volume = PyVal.int 100 ∧
    PyVal.int 100 ≠ PyVal.int 0 := by
  constructor
  · decide
  · decide

/-- Claim C1 (amended): a refresh in which every property fetch fails or
returns nothing still yields a complete state and never fails: in
`update_playback_state` the title becomes "Unknown", duration, position,
chapter and chapter count become 0, paused false, speed 1.0, and volume
100 (not 0); in the radio `get_status` the title becomes "Unknown" while
the cached volume and believed-playing flag are simply kept. -/
theorem refresh_total_failure_defaults :
    (∀ (props : String → SendResult) (now : PyVal) (s : PlaybackState),
      (∀ p, get_property (props p) = Option.none) →
      update_playback_state props now s =
        { filename := .str "Unknown", duration := .int 0, position := .int 0,
          paused := .bool false, speed := .float 1, chapter := .int 0,
          chapter_count := .int 0, volume := .int 100, last_updated := now }) ∧
    (∀ (env : Env) (stations : List Station) (s : MPVState),
      (∀ c, env.ch c = Option.none) →
      get_status env stations s =
        ({ playing := s.playing, station_index := s.current_station,
           station_name := station_name_of stations s.current_station,
           media_title := .str "Unknown", volume := s.volume }, s)) := by
  constructor
  · intro props now s h
    simp [update_playback_state, h, optToPy, pyOr, PyVal.truthy]
  · intro env stations s h
    simp [get_status, h, replyData]

/-- Claim C1 witness: both amended conclusions at concrete inputs. -/
theorem refresh_total_failure_defaults_witness :
    update_playback_state (fun _ => SendResult.err "down") (.int 3)
      initial_playback_state =
      { filename := .str "Unknown", duration := .int 0, position := .int 0,
        paused := .bool false, speed := .float 1, chapter := .int 0,
        chapter_count := .int 0, volume := .int 100, last_updated := .int 3 } ∧
    get_status env_down [] initial_mpv_state =
      ({ playing := false, station_index := Option.none, station_name := Option.none,
         media_title := .str "Unknown", volume := .int 50 }, initial_mpv_state) := by
  constructor
  · exact refresh_total_failure_defaults.1 _ _ _ (fun p => rfl)
  · exact refresh_total_failure_defaults.2 env_down [] initial_mpv_state (fun c => rfl)

/-- Claim C2: `set_volume` with a value outside `[0,100]` fails (returns
`False`), sends nothing on the Command Channel, and leaves the whole
controller state — in particular the cached volume — unchanged. -/
theorem set_volume_out_of_range_rejected :
    ∀ (env : Env) (s : MPVState) (v : Int), (v < 0 ∨ 100 < v) →
      set_volume env s v = (false, s, []) := by
  intro env s v h
  simp [set_volume, h]

/-- Claim C2 witness: `set_volume 150` at the spec's sample state. -/
theorem set_volume_out_of_range_rejected_witness :
    ((150 : Int) < 0 ∨ (100 : Int) < 150) ∧
    set_volume env_all_ok initial_mpv_state 150 = (false, initial_mpv_state, []) :=
  ⟨Or.inr (by decide),
   set_volume_out_of_range_rejected env_all_ok initial_mpv_state 150 (Or.inr (by decide))⟩

/-- Claim C3: `play_station` with an index outside `[0, stationCount)`
fails (returns `False`), contacts the Command Channel with no command at
all, and leaves the controller state — in particular `current_station` and
the believed-playing flag — unchanged. -/
theorem play_station_invalid_index_rejected :
    ∀ (env : Env) (stations : List Station) (s : MPVState) (i : Int),
      (i < 0 ∨ (stations.length : Int) ≤ i) →
      play_station env stations s i = (false, s, []) := by
  intro env stations s i h
  simp [play_station, h]

/-- Claim C3 witness: index 1 against a single-station list. -/
theorem play_station_invalid_index_rejected_witness :
    ((1 : Int) < 0 ∨ (([test_station] : List Station).length : Int) ≤ 1) ∧
    play_station env_all_ok [test_station] initial_mpv_state 1 =
      (false, initial_mpv_state, []) :=
  ⟨Or.inr (by decide),
   play_station_invalid_index_rejected env_all_ok [test_station] initial_mpv_state 1
     (Or.inr (by decide))⟩

/-- Claim C4: shutting the player down. With no tracked handle both
variants are no-ops. With a tracked handle, the radio `stop_mpv` signals a
graceful terminate, waits at most 5 seconds and kills only on timeout,
always clearing the handle, the remembered station and the
believed-playing flag; the controller `/stop` route sends the channel
`quit` command, waits at most 5 seconds, terminates only when the wait
fails, and always clears the handle. -/
theorem stop_player_contract :
    (∀ (t : Bool) (s : MPVState), s.mpv_process = Option.none →
        stop_mpv t s = (s, [])) ∧
    (∀ (t : Bool) (s : MPVState) (p : Proc), s.mpv_process = some p →
        stop_mpv t s =
          ({ s with
              mpv_process := Option.none
              playing := false
              current_station := Option.none },
           if t then [ProcAction.terminate, ProcAction.wait 5, ProcAction.kill]
           else [ProcAction.terminate, ProcAction.wait 5])) ∧
    (∀ (sendOk waitRaises : Bool) (cs : CtrlState), cs.mpv_process = Option.none →
        controller_stop sendOk waitRaises cs = (false, cs, [])) ∧
    (∀ (sendOk waitRaises : Bool) (cs : CtrlState) (p : Proc),
        cs.mpv_process = some p →
        controller_stop sendOk waitRaises cs =
          (sendOk, { mpv_process := Option.none },
           ProcAction.sendQuit :: ProcAction.wait 5 ::
             (if waitRaises then [ProcAction.terminate] else []))) := by
  refine ⟨?_, ?_, ?_, ?_⟩
  · intro t s h
    simp [stop_mpv, h]
  · intro t s p h
    simp [stop_mpv, h]
  · intro ok w cs h
    simp [controller_stop, h]
  · intro ok w cs p h
    simp [controller_stop, h]

/-- Claim C4 witness: all four branches at concrete inputs. -/
theorem stop_player_contract_witness :
    stop_mpv true initial_mpv_state = (initial_mpv_state, []) ∧
    stop_mpv true { initial_mpv_state with mpv_process := some ⟨7, true⟩, current_station := some 2, playing := true } =
      (initial_mpv_state, [ProcAction.terminate, ProcAction.wait 5, ProcAction.kill]) ∧
    controller_stop true true ⟨Option.none⟩ = (false, ⟨Option.none⟩, []) ∧
    controller_stop true true ⟨some ⟨7, true⟩⟩ =
      (true, ⟨Option.none⟩, [ProcAction.sendQuit, ProcAction.wait 5, ProcAction.terminate]) := by
  refine ⟨?_, ?_, ?_, ?_⟩
  · exact stop_player_contract.1 true initial_mpv_state rfl
  · have h := stop_player_contract.2.1 true
      { initial_mpv_state with mpv_process := some ⟨7, true⟩, current_station := some 2, playing := true }
      ⟨7, true⟩ rfl
    simpa using h
  · exact stop_player_contract.2.2.1 true true ⟨Option.none⟩ rfl
  · have h := stop_player_contract.2.2.2 true true ⟨some ⟨7, true⟩⟩ ⟨7, true⟩ rfl
    simpa using h

/-- Claim C5: a successful `stop` clears the believed-playing flag but
preserves the remembered station index — and also the cached volume and
the tracked process handle (the frame of the operation). -/
theorem stop_preserves_station :
    ∀ (env : Env) (s : MPVState), (stop env s).1 = true →
      (stop env s).2.1.playing = false ∧
      (stop env s).2.1.current_station = s.current_station ∧
      (stop env s).2.1.volume = s.volume ∧
      (stop env s).2.1.mpv_process = s.mpv_process := by
  intro env s h
  cases hc : env.ch Cmd.stopPlayback with
  | none => simp [stop, hc] at h
  | some d => simp [stop, hc]

/-- Claim C5 witness: a successful stop from a playing state. -/
theorem stop_preserves_station_witness :
    (stop env_all_ok { initial_mpv_state with current_station := some 2, playing := true }).1 = true ∧
    ((stop env_all_ok { initial_mpv_state with current_station := some 2, playing := true }).2.1.playing = false ∧
     (stop env_all_ok { initial_mpv_state with current_station := some 2, playing := true }).2.1.current_station =
       ({ initial_mpv_state with current_station := some 2, playing := true } : MPVState).current_station ∧
     (stop env_all_ok { initial_mpv_state with current_station := some 2, playing := true }).2.1.volume =
       ({ initial_mpv_state with current_station := some 2, playing := true } : MPVState).volume ∧
     (stop env_all_ok { initial_mpv_state with current_station := some 2, playing := true }).2.1.mpv_process =
       ({ initial_mpv_state with current_station := some 2, playing := true } : MPVState).mpv_process) :=
  ⟨rfl, stop_preserves_station env_all_ok
    { initial_mpv_state with current_station := some 2, playing := true } rfl⟩

/-- Claim C6: with every Command Channel call answered and one configured
station, `play_station 0` succeeds and records station 0 as playing, a
first `toggle_pause` succeeds and flips believed-playing to false, and a
second `toggle_pause` recognizes the remembered station, re-issues its
`loadfile` command, and believed-playing returns to true. -/
theorem play_toggle_toggle_scenario :
    ∀ (env : Env) (st : Station) (s0 : MPVState),
      env.socketExists = true →
      (∀ c, (env.ch c).isSome = true) →
      let r1 := play_station env [st] s0 0
      let r2 := toggle_pause env [st] r1.2.1
      let r3 := toggle_pause env [st] r2.2.1
      r1.1 = true ∧ r1.2.1.current_station = some 0 ∧ r1.2.1.playing = true ∧
      r2.1 = true ∧ r2.2.1.playing = false ∧ r2.2.1.current_station = some 0 ∧
      r3.1 = true ∧ r3.2.1.playing = true ∧ r3.2.2 = [Cmd.loadfile st.url] := by
  intro env st s0 hsock hch
  obtain ⟨d1, hd1⟩ := Option.isSome_iff_exists.mp (hch (Cmd.loadfile st.url))
  obtain ⟨d2, hd2⟩ := Option.isSome_iff_exists.mp (hch Cmd.cyclePause)
  have h1 : play_station env [st] s0 0 =
      (true, { s0 with current_station := some 0, playing := true },
       [Cmd.loadfile st.url]) := by
    simp [play_station, hsock, hd1]
  have h2 : toggle_pause env [st] { s0 with current_station := some 0, playing := true } =
      (true, { s0 with current_station := some 0, playing := false },
       [Cmd.cyclePause]) := by
    simp [toggle_pause, hd2]
  have h3 : toggle_pause env [st] { s0 with current_station := some 0, playing := false } =
      (true, { s0 with current_station := some 0, playing := true },
       [Cmd.loadfile st.url]) := by
    simp [toggle_pause, play_station, hsock, hd1]
  simp [h1, h2, h3]

/-- Claim C6 witness: the spec's single-station scenario run concretely. -/
theorem play_toggle_toggle_scenario_witness :
    (play_station env_all_ok [test_station] initial_mpv_state 0).1 = true ∧
    (play_station env_all_ok [test_station] initial_mpv_state 0).2.1.current_station = some 0 ∧
    (play_station env_all_ok [test_station] initial_mpv_state 0).2.1.playing = true ∧
    (toggle_pause env_all_ok [test_station]
      (play_station env_all_ok [test_station] initial_mpv_state 0).2.1).1 = true ∧
    (toggle_pause env_all_ok [test_station]
      (play_station env_all_ok [test_station] initial_mpv_state 0).2.1).2.1.playing = false ∧
    (toggle_pause env_all_ok [test_station]
      (toggle_pause env_all_ok [test_station]
        (play_station env_all_ok [test_station] initial_mpv_state 0).2.1).2.1).1 = true ∧
    (toggle_pause env_all_ok [test_station]
      (toggle_pause env_all_ok [test_station]
        (play_station env_all_ok [test_station] initial_mpv_state 0).2.1).2.1).2.1.playing = true := by
  have h := play_toggle_toggle_scenario env_all_ok test_station initial_mpv_state rfl
    (fun c => rfl)
  exact ⟨h.1, h.2.1, h.2.2.1, h.2.2.2.1, h.2.2.2.2.1, h.2.2.2.2.2.2.1, h.2.2.2.2.2.2.2.1⟩

/-- Claim C7 counterexample: with a live tracked process, `start_mpv` is a
no-op that spawns nothing, but it reports `None` (a bare `return`), whose
truthiness equals that of an explicit failure `False` — and a caller that
tests it, `play_station` with the socket file absent, turns the
already-running situation into a reported failure. -/
theorem start_mpv_already_running_reports_falsy :
    start_mpv env_sockless state_live_proc = (Option.none, state_live_proc, false) ∧
    pyTruthyOptBool Option.none = false ∧
    pyTruthyOptBool (some false) = false ∧
    pyTruthyOptBool (some true) = true ∧
    (play_station env_sockless [test_station] state_live_proc 0).1 = false := by
  refine ⟨rfl, rfl, rfl, rfl, rfl⟩

/-- Claim C7 (amended): with a live tracked process, `start_mpv` is a no-op
that changes no facade state and spawns no process, but it returns no
value (`None`) — which the code's own truthiness checks classify exactly
like a failure, not like a success. -/
theorem start_mpv_already_running_noop :
    ∀ (env : Env) (s : MPVState) (p : Proc),
      s.mpv_process = some p → p.alive = true →
      start_mpv env s = (Option.none, s, false) ∧
      pyTruthyOptBool (start_mpv env s).1 = pyTruthyOptBool (some false) := by
  intro env s p hp ha
  simp [start_mpv, hp, ha, pyTruthyOptBool]

/-- Claim C7 witness: a live process handle with a working spawner. -/
theorem start_mpv_already_running_noop_witness :
    start_mpv env_all_ok state_live_proc = (Option.none, state_live_proc, false) ∧
    pyTruthyOptBool (start_mpv env_all_ok state_live_proc).1 = pyTruthyOptBool (some false) :=
  start_mpv_already_running_noop env_all_ok state_live_proc ⟨2, true⟩ rfl rfl

/-- Claim C8 counterexample: the controller variant's `/stop` with no
tracked process is a no-op but answers `success = False`, not success. -/
theorem controller_stop_second_call_reports_failure :
    controller_stop true false ⟨Option.none⟩ = (false, ⟨Option.none⟩, []) ∧
    (false : Bool) ≠ true := by
  constructor
  · rfl
  · decide

/-- Claim C8 (amended): shutting the player down twice in a row is safe
and the second call is always a no-op: after any `stop_mpv` the handle is
gone, a second `stop_mpv` changes nothing and takes no process action, and
the radio shutdown route reports success unconditionally; the controller
variant's second `/stop`, however, is a no-op that answers
`success = False`, not success. -/
theorem stop_player_idempotent :
    (∀ (t1 t2 : Bool) (s : MPVState),
        stop_mpv t2 (stop_mpv t1 s).1 = ((stop_mpv t1 s).1, [])) ∧
    (∀ (t : Bool) (s : MPVState), (stop_mpv t s).1.mpv_process = Option.none) ∧
    (∀ (t : Bool) (s : MPVState), (shutdown_mpv t s).1 = "success") ∧
    (∀ (ok1 w1 ok2 w2 : Bool) (cs : CtrlState),
        controller_stop ok2 w2 (controller_stop ok1 w1 cs).2.1 =
          (false, (controller_stop ok1 w1 cs).2.1, [])) := by
  refine ⟨?_, ?_, ?_, ?_⟩
  · intro t1 t2 s
    cases h : s.mpv_process <;> simp [stop_mpv, h]
  · intro t s
    cases h : s.mpv_process <;> simp [stop_mpv, h]
  · intro t s
    rfl
  · intro ok1 w1 ok2 w2 cs
    cases h : cs.mpv_process <;> simp [controller_stop, h]

/-- Claim C9: a Command Channel reply that lacks a `"data"` field yields
"no usable value" rather than an error: `get_property` returns `None` for
a data-less reply dict and for the substituted error dict, and `get_status`
fed only data-less reply objects keeps every cached field and falls back
to the "Unknown" title. -/
theorem reply_without_data_yields_no_value :
    (∀ (fields : List (String × PyVal)),
        lookupField fields "data" = Option.none →
        get_property (SendResult.ok fields) = Option.none) ∧
    (∀ (m : String), get_property (SendResult.err m) = Option.none) ∧
    (∀ (env : Env) (stations : List Station) (s : MPVState),
        (∀ c, ∃ d, env.ch c = some d ∧ lookupField d "data" = Option.none) →
        get_status env stations s =
          ({ playing := s.playing, station_index := s.current_station,
             station_name := station_name_of stations s.current_station,
             media_title := .str "Unknown", volume := s.volume }, s)) := by
  refine ⟨?_, ?_, ?_⟩
  · intro fields h
    simp [get_property, SendResult.fields, h]
  · intro m
    rfl
  · intro env stations s h
    have hr : ∀ c, replyData (env.ch c) = Option.none := by
      intro c
      obtain ⟨d, hd, hl⟩ := h c
      rw [hd]
      simp [replyData, hl]
    simp [get_status, hr]

/-- Claim C9 witness: a reply dict carrying only an error key. -/
theorem reply_without_data_yields_no_value_witness :
    get_property (SendResult.ok [("err", PyVal.str "x")]) = Option.none ∧
    get_property (SendResult.err "boom") = Option.none ∧
    get_status env_no_data [] initial_mpv_state =
      ({ playing := false, station_index := Option.none, station_name := Option.none,
         media_title := .str "Unknown", volume := .int 50 }, initial_mpv_state) :=
  ⟨reply_without_data_yields_no_value.1 [("err", PyVal.str "x")] rfl,
   reply_without_data_yields_no_value.2.1 "boom",
   reply_without_data_yields_no_value.2.2 env_no_data [] initial_mpv_state
     (fun _c => ⟨[("err", PyVal.str "x")], rfl, rfl⟩)⟩

/-- Claim C10: in the refresh path a fetch that succeeds with a falsy value
is replaced by the default exactly like a failed fetch: a reported volume
of 0 is recorded as 100, a speed of 0.0 as 1.0, a duration or position of
0 stays 0, and a reported pause value of `False` produces the same stored
`paused` as a missing pause property. -/
theorem falsy_fetch_indistinguishable_from_failure :
    ∀ (props : String → SendResult) (now : PyVal) (s : PlaybackState),
      get_property (props "volume") = some (PyVal.int 0) →
      get_property (props "speed") = some (PyVal.float 0) →
      get_property (props "duration") = some (PyVal.int 0) →
      get_property (props "time-pos") = some (PyVal.int 0) →
      get_property (props "pause") = some (PyVal.bool false) →
      (update_playback_state props now s).volume = PyVal.int 100 ∧
      (update_playback_state props now s).speed = PyVal.float 1 ∧
      (update_playback_state props now s).duration = PyVal.int 0 ∧
      (update_playback_state props now s).position = PyVal.int 0 ∧
      (update_playback_state props now s).paused = PyVal.bool false ∧
      (∀ (props2 : String → SendResult) (now2 : PyVal) (s2 : PlaybackState),
          get_property (props2 "pause") = Option.none →
          (update_playback_state props2 now2 s2).paused =
            (update_playback_state props now s).paused) := by
  intro props now s hv hsp hd ht hp
  refine ⟨?_, ?_, ?_, ?_, ?_, ?_⟩
  · simp [update_playback_state, hv, optToPy, pyOr, PyVal.truthy]
  · simp [update_playback_state, hsp, optToPy, pyOr, PyVal.truthy]
  · simp [update_playback_state, hd, optToPy, pyOr, PyVal.truthy]
  · simp [update_playback_state, ht, optToPy, pyOr, PyVal.truthy]
  · simp [update_playback_state, hp, optToPy, pyOr, PyVal.truthy]
  · intro props2 now2 s2 h2
    simp [update_playback_state, hp, h2, optToPy, pyOr, PyVal.truthy]

/-- Claim C10 witness: all-falsy fetches versus an all-failing channel. -/
theorem falsy_fetch_indistinguishable_from_failure_witness :
    (update_playback_state falsy_props_example (.int 7) initial_playback_state).volume = PyVal.int 100 ∧
    (update_playback_state falsy_props_example (.int 7) initial_playback_state).speed = PyVal.float 1 ∧
    (update_playback_state falsy_props_example (.int 7) initial_playback_state).duration = PyVal.int 0 ∧
    (update_playback_state falsy_props_example (.int 7) initial_playback_state).position = PyVal.int 0 ∧
    (update_playback_state falsy_props_example (.int 7) initial_playback_state).paused = PyVal.bool false ∧
    (update_playback_state (fun _ => SendResult.err "down") (.int 0)
        initial_playback_state).paused =
      (update_playback_state falsy_props_example (.int 7) initial_playback_state).paused := by
  have h := falsy_fetch_indistinguishable_from_failure falsy_props_example (.int 7)
    initial_playback_state rfl rfl rfl rfl rfl
  exact ⟨h.1, h.2.1, h.2.2.1, h.2.2.2.1, h.2.2.2.2.1,
    h.2.2.2.2.2 (fun _ => SendResult.err "down") (.int 0) initial_playback_state rfl⟩

end MpvWeb
